import Mathlib

/-!
Verification of the TriChoice scoring-and-decision engine (src/app.py).

The embedding follows the source: `point` is the per-flag scoring
helper (line 42), `glide` the composite score (line 46),
`repair_bucket` the severity bucket (lines 49-54) and `recommend`
the decision logic (lines 59-104). Strings are copied verbatim from
the source; Python integers are modelled by `Int` where the code
receives an arbitrary integer and by `Nat` where it is a sum of
0/1 contributions.
-/

namespace TriChoice

/-- Per-flag scoring helper, from src/app.py line 42:
`1 if "Unfavorable" in x or x in [...] else 0`. -/
def point (x : String) : Nat :=
  if ("Unfavorable".toList <:+: x.toList) ∨
      (x ∈ ["Suboptimal/Shadowing",
            "High/dense (tethered/subvalvular crowding)",
            "Diffuse/multi-jet"]) then 1 else 0

/-- Composite GLIDE score, from src/app.py line 46. -/
def glide (gap loc imgq density enface : String) : Nat :=
  point gap + point loc + point imgq + point density + point enface

/-- Severity bucket, from src/app.py lines 49-54. -/
def repair_bucket (glide : Nat) : String :=
  if glide ≤ 1 then "High likelihood of successful T‑TEER (GLIDE 0–1)"
  else if 2 ≤ glide ∧ glide ≤ 3 then "Intermediate likelihood of T‑TEER success (GLIDE 2–3)"
  else "Low likelihood of T‑TEER success (GLIDE ≥4)"

/-- The two valid categories of the septolateral-gap input (line 29). -/
def gapValues : List String := ["Favorable (small/moderate)", "Unfavorable (large)"]

/-- The two valid categories of the jet-location input (line 30). -/
def locValues : List String := ["Favorable (central)", "Unfavorable (commissural/off-axis/multiple)"]

/-- The two valid categories of the image-quality input (line 31). -/
def imgqValues : List String := ["Good/Excellent", "Suboptimal/Shadowing"]

/-- The two valid categories of the chordal-density input (line 32). -/
def densityValues : List String := ["Low/typical", "High/dense (tethered/subvalvular crowding)"]

/-- The two valid categories of the en-face morphology input (line 33). -/
def enfaceValues : List String := ["Focal/single", "Diffuse/multi-jet"]

/-- Spec-side count of "unfavorable" categories among the five inputs. -/
def unfavCount (gap loc imgq density enface : String) : Nat :=
  (if gap = "Unfavorable (large)" then 1 else 0) +
  (if loc = "Unfavorable (commissural/off-axis/multiple)" then 1 else 0) +
  (if imgq = "Suboptimal/Shadowing" then 1 else 0) +
  (if density = "High/dense (tethered/subvalvular crowding)" then 1 else 0) +
  (if enface = "Diffuse/multi-jet" then 1 else 0)

/-- Mandatory first reason of the repair branch (src/app.py line 80). -/
def r_repair_success : String :=
  "GLIDE 0–1 associated with >90% acute T‑TEER success. [1](https://www.scholars.northwestern.edu/en/publications/glide-score-scoring-system-for-prediction-of-procedural-success-i)"

/-- Conditional futility caution of the repair branch (line 82). -/
def r_repair_futility : String :=
  "However, severe PH or end-stage RV dysfunction may indicate limited benefit/futility; still consider repair for incremental reduction. [4](https://www.frontiersin.org/journals/cardiovascular-medicine/articles/10.3389/fcvm.2024.1447411/full)[10](https://academic.oup.com/eurheartjsupp/article/27/Supplement_3/iii162/8114533)"

/-- Conditional lead-strategy note of the repair branch (line 84). -/
def r_repair_lead : String :=
  "CIED lead interaction requires strategy (work around vs lead management). [3](https://citoday.com/articles/2024-sept-oct/t-teer-versus-ttvr-considerations-for-transcatheter-tricuspid-valve-therapy-choice)"

/-- Mandatory first reason of the replacement branch (line 89). -/
def r_replace_success : String :=
  "GLIDE ≥4 predicts low probability of T‑TEER success; consider TTVR if anatomy suitable. [1](https://www.scholars.northwestern.edu/en/publications/glide-score-scoring-system-for-prediction-of-procedural-success-i)"

/-- Conditional afterload-mismatch caution of the replacement branch (line 91). -/
def r_replace_rv : String :=
  "Beware RV afterload mismatch and higher risk of RV failure/pacemaker need after TTVR. [3](https://citoday.com/articles/2024-sept-oct/t-teer-versus-ttvr-considerations-for-transcatheter-tricuspid-valve-therapy-choice)[5](https://www.acc.org/latest-in-cardiology/articles/2024/10/24/19/43/sun-215pm-tricuspid-valve-treatments-tct-2024)"

/-- Conditional lead-management note of the replacement branch (line 93). -/
def r_replace_lead : String :=
  "Assess lead management before TTVR to avoid lead entrapment. [3](https://citoday.com/articles/2024-sept-oct/t-teer-versus-ttvr-considerations-for-transcatheter-tricuspid-valve-therapy-choice)"

/-- Mandatory first reason of the borderline branch (line 98). -/
def r_border_main : String :=
  "GLIDE 2–3 = intermediate T‑TEER success; use RV function, PH, TR extent, and lead status to choose. [3](https://citoday.com/articles/2024-sept-oct/t-teer-versus-ttvr-considerations-for-transcatheter-tricuspid-valve-therapy-choice)"

/-- Conditional stepwise-repair reason of the borderline branch (line 100). -/
def r_border_stepwise : String :=
  "If RV is preserved and PH not severe, a stepwise **repair** may be preferred for safety and gradated reduction. [3](https://citoday.com/articles/2024-sept-oct/t-teer-versus-ttvr-considerations-for-transcatheter-tricuspid-valve-therapy-choice)"

/-- Conditional replacement-for-reliable-elimination reason of the borderline branch (line 102). -/
def r_border_replace : String :=
  "If TR is torrential or anatomy/lead unfavorable for grasping, **replacement** may provide more reliable elimination of TR. [3](https://citoday.com/articles/2024-sept-oct/t-teer-versus-ttvr-considerations-for-transcatheter-tricuspid-valve-therapy-choice)"

/-- Decision logic, from src/app.py lines 59-104. Python integers are
modelled by `Int`; the sequential `reasons.append` calls of each branch
are modelled by list concatenation of conditional singletons, preserving
order. The function's default `choice`/`reasons` values are overwritten
on every branch of the if/elif/else chain, so the chain is translated
directly. -/
def recommend (glide : Int) (rv_function ph_status tr_severity cied_lead : String) :
    String × List String :=
  let severe_rv := rv_function = "Severely impaired"
  let severe_ph := ph_status = "Severe/pre-capillary"
  let torrential := tr_severity = "Torrential"
  let lead_imping := cied_lead = "Yes — impinging / causal"
  if glide ≤ 1 then
    ("Repair favored (TriClip — T‑TEER)",
      r_repair_success ::
        ((if severe_ph ∨ severe_rv then [r_repair_futility] else []) ++
         (if lead_imping then [r_repair_lead] else [])))
  else if glide ≥ 4 then
    ("Replacement favored (TTVR)",
      r_replace_success ::
        ((if severe_rv then [r_replace_rv] else []) ++
         (if lead_imping then [r_replace_lead] else [])))
  else
    ("Borderline — Heart Team review",
      r_border_main ::
        ((if ¬(severe_rv ∨ severe_ph) ∧ ¬torrential then [r_border_stepwise] else []) ++
         (if torrential ∨ lead_imping then [r_border_replace] else [])))

end TriChoice

namespace TriChoice

/-- C1: on valid inputs the score is the count of unfavorable flags, in [0,5]. -/
theorem glide_eq_unfavCount (gap loc imgq density enface : String)
    (hg : gap ∈ gapValues) (hl : loc ∈ locValues) (hi : imgq ∈ imgqValues)
    (hd : density ∈ densityValues) (he : enface ∈ enfaceValues) :
    glide gap loc imgq density enface = unfavCount gap loc imgq density enface ∧
    glide gap loc imgq density enface ≤ 5 := by
  fin_cases hg <;> fin_cases hl <;> fin_cases hi <;> fin_cases hd <;> fin_cases he <;>
    exact ⟨by decide, by decide⟩

/-- Witness for C1 at a concrete valid 5-tuple. -/
theorem glide_eq_unfavCount_witness :
    glide "Favorable (small/moderate)" "Unfavorable (commissural/off-axis/multiple)"
      "Suboptimal/Shadowing" "Low/typical" "Focal/single" =
      unfavCount "Favorable (small/moderate)" "Unfavorable (commissural/off-axis/multiple)"
        "Suboptimal/Shadowing" "Low/typical" "Focal/single" ∧
    glide "Favorable (small/moderate)" "Unfavorable (commissural/off-axis/multiple)"
      "Suboptimal/Shadowing" "Low/typical" "Focal/single" ≤ 5 :=
  glide_eq_unfavCount _ _ _ _ _ (by decide) (by decide) (by decide) (by decide) (by decide)

/-- C2: the severity bucket is a deterministic function of the score alone
(`repair_bucket : Nat → String`), and on [0,5] it is the fixed partition
0,1 ↦ High, 2,3 ↦ Intermediate, 4,5 ↦ Low. -/
theorem repair_bucket_partition :
    repair_bucket 0 = "High likelihood of successful T‑TEER (GLIDE 0–1)" ∧
    repair_bucket 1 = "High likelihood of successful T‑TEER (GLIDE 0–1)" ∧
    repair_bucket 2 = "Intermediate likelihood of T‑TEER success (GLIDE 2–3)" ∧
    repair_bucket 3 = "Intermediate likelihood of T‑TEER success (GLIDE 2–3)" ∧
    repair_bucket 4 = "Low likelihood of T‑TEER success (GLIDE ≥4)" ∧
    repair_bucket 5 = "Low likelihood of T‑TEER success (GLIDE ≥4)" := by
  refine ⟨?_, ?_, ?_, ?_, ?_, ?_⟩ <;> decide

/-- C8: `recommend` is deterministic and idempotent: two calls with
identical inputs yield identical (label, reasons) pairs. -/
theorem recommend_deterministic (g g' : Int) (rv rv' ph ph' tr tr' lead lead' : String)
    (hg : g = g') (hrv : rv = rv') (hph : ph = ph') (htr : tr = tr') (hld : lead = lead') :
    recommend g rv ph tr lead = recommend g' rv' ph' tr' lead' := by
  subst hg hrv hph htr hld
  rfl

/-- Witness for C8 at concrete inputs. -/
theorem recommend_deterministic_witness :
    recommend 3 "Severely impaired" "None/mild" "Severe" "No" =
      recommend 3 "Severely impaired" "None/mild" "Severe" "No" :=
  recommend_deterministic 3 3 "Severely impaired" "Severely impaired" "None/mild" "None/mild"
    "Severe" "Severe" "No" "No" rfl rfl rfl rfl rfl

/-- C10: `recommend` is total over all integer scores: every score ≤ 1
(including negatives) yields the Repair-favored label, every score ≥ 4
(including values above 5) yields the Replacement-favored label, the
remaining integers (2 and 3) yield the Borderline label, and the reasons
list is non-empty for every integer input. -/
theorem recommend_total (g : Int) (rv ph tr lead : String) :
    (recommend g rv ph tr lead).2 ≠ [] ∧
    (recommend g rv ph tr lead).1 =
      (if g ≤ 1 then "Repair favored (TriClip — T‑TEER)"
       else if g ≥ 4 then "Replacement favored (TTVR)"
       else "Borderline — Heart Team review") := by
  by_cases h1 : g ≤ 1 <;> by_cases h2 : g ≥ 4 <;>
    simp [recommend, h1, h2]

/-- C3: for score 0 or 1 and any clinical context, `recommend` returns the
Repair-favored label; the first reason is the mandatory high-success
statement, followed by the futility caution exactly when severe PH or
severe RV holds, then by the lead-strategy note exactly when the lead is
impinging, and nothing else. -/
theorem recommend_low_score (score : Int) (h : score = 0 ∨ score = 1)
    (rv ph tr lead : String) :
    recommend score rv ph tr lead =
      ("Repair favored (TriClip — T‑TEER)",
        r_repair_success ::
          ((if ph = "Severe/pre-capillary" ∨ rv = "Severely impaired"
            then [r_repair_futility] else []) ++
           (if lead = "Yes — impinging / causal" then [r_repair_lead] else []))) := by
  have hle : score ≤ 1 := by omega
  unfold recommend
  rw [if_pos hle]

/-- Witness for C3: score 0 with severe PH and an impinging lead fires both
conditional reasons. -/
theorem recommend_low_score_witness :
    recommend 0 "Normal/mildly impaired" "Severe/pre-capillary" "Severe"
        "Yes — impinging / causal" =
      ("Repair favored (TriClip — T‑TEER)",
        [r_repair_success, r_repair_futility, r_repair_lead]) := by
  rw [recommend_low_score 0 (Or.inl rfl) "Normal/mildly impaired" "Severe/pre-capillary"
    "Severe" "Yes — impinging / causal"]
  simp

/-- C4: for score 4 or 5 and any clinical context, `recommend` returns the
Replacement-favored label; the first reason is the mandatory low-success
statement, followed by the afterload-mismatch caution exactly when severe
RV holds, then by the lead-management note exactly when the lead is
impinging, and nothing else. -/
theorem recommend_high_score (score : Int) (h : score = 4 ∨ score = 5)
    (rv ph tr lead : String) :
    recommend score rv ph tr lead =
      ("Replacement favored (TTVR)",
        r_replace_success ::
          ((if rv = "Severely impaired" then [r_replace_rv] else []) ++
           (if lead = "Yes — impinging / causal" then [r_replace_lead] else []))) := by
  have h1 : ¬(score ≤ 1) := by omega
  have h2 : score ≥ 4 := by omega
  unfold recommend
  rw [if_neg h1, if_pos h2]

/-- Witness for C4: score 5 with severe RV and an impinging lead fires both
conditional reasons. -/
theorem recommend_high_score_witness :
    recommend 5 "Severely impaired" "None/mild" "Severe" "Yes — impinging / causal" =
      ("Replacement favored (TTVR)",
        [r_replace_success, r_replace_rv, r_replace_lead]) := by
  rw [recommend_high_score 5 (Or.inr rfl) "Severely impaired" "None/mild" "Severe"
    "Yes — impinging / causal"]
  simp

/-- C5: for score 2 or 3 and any clinical context, `recommend` returns the
Borderline label; the first reason is the mandatory intermediate-success
statement, followed by the stepwise-repair reason exactly when neither RV
nor PH is severe and TR is not torrential, then by the
replacement-for-reliable-elimination reason exactly when TR is torrential
or the lead impinges; the independently gated list has length 1, 2 or 3. -/
theorem recommend_mid_score (score : Int) (h : score = 2 ∨ score = 3)
    (rv ph tr lead : String) :
    recommend score rv ph tr lead =
      ("Borderline — Heart Team review",
        r_border_main ::
          ((if ¬(rv = "Severely impaired" ∨ ph = "Severe/pre-capillary") ∧
                ¬(tr = "Torrential")
            then [r_border_stepwise] else []) ++
           (if tr = "Torrential" ∨ lead = "Yes — impinging / causal"
            then [r_border_replace] else []))) ∧
    1 ≤ (recommend score rv ph tr lead).2.length ∧
    (recommend score rv ph tr lead).2.length ≤ 3 := by
  have h1 : ¬(score ≤ 1) := by omega
  have h2 : ¬(score ≥ 4) := by omega
  have heq : recommend score rv ph tr lead =
      ("Borderline — Heart Team review",
        r_border_main ::
          ((if ¬(rv = "Severely impaired" ∨ ph = "Severe/pre-capillary") ∧
                ¬(tr = "Torrential")
            then [r_border_stepwise] else []) ++
           (if tr = "Torrential" ∨ lead = "Yes — impinging / causal"
            then [r_border_replace] else []))) := by
    unfold recommend
    rw [if_neg h1, if_neg h2]
  refine ⟨heq, ?_, ?_⟩ <;> rw [heq] <;>
    simp only [List.length_cons, List.length_append] <;>
    split <;> split <;> simp

/-- Witness for C5: score 3 with severe RV, non-severe PH, non-torrential
TR and no lead keeps both conditionals off, so only the mandatory reason
appears. -/
theorem recommend_mid_score_witness :
    recommend 3 "Severely impaired" "None/mild" "Severe" "No" =
      ("Borderline — Heart Team review", [r_border_main]) := by
  rw [(recommend_mid_score 3 (Or.inr rfl) "Severely impaired" "None/mild" "Severe" "No").1]
  simp

/-- C6 counterexample: an anatomic value outside its declared category set
does not abort the computation; the helper scores it 0 and the composite
score is still produced (here 0). No InvalidInput error exists in the
scoring path, which is a total function on strings. -/
theorem invalid_input_still_scored :
    ("Banana smoothie" ∉ gapValues) ∧
    point "Banana smoothie" = 0 ∧
    glide "Banana smoothie" "Favorable (central)" "Good/Excellent" "Low/typical"
      "Focal/single" = 0 :=
  ⟨by decide, by decide, by decide⟩

/-- Per-flag contributions never exceed one point. -/
theorem point_le_one (x : String) : point x ≤ 1 := by
  unfold point
  split <;> simp

/-- C6 (amended): the score computation is total over arbitrary strings —
no error is raised for values outside the declared category sets; every
input, valid or not, contributes 0 or 1 points and a score in [0,5] is
always produced. -/
theorem glide_total_in_range (g l i d e : String) :
    glide g l i d e ≤ 5 ∧ point g ≤ 1 := by
  have h1 := point_le_one g
  have h2 := point_le_one l
  have h3 := point_le_one i
  have h4 := point_le_one d
  have h5 := point_le_one e
  unfold glide
  exact ⟨by omega, h1⟩

/-- C9: the scoring helper is total over arbitrary strings: it returns 0
or 1, and returns 1 exactly when the string contains the substring
"Unfavorable" or equals one of the three listed unfavorable categories;
any unrecognized value contributes 0. -/
theorem point_total (x : String) :
    (point x = 0 ∨ point x = 1) ∧
    (point x = 1 ↔
      ("Unfavorable".toList <:+: x.toList ∨
        x ∈ ["Suboptimal/Shadowing",
             "High/dense (tethered/subvalvular crowding)",
             "Diffuse/multi-jet"])) := by
  by_cases h : ("Unfavorable".toList <:+: x.toList ∨
      x ∈ ["Suboptimal/Shadowing",
           "High/dense (tethered/subvalvular crowding)",
           "Diffuse/multi-jet"])
  · unfold point
    rw [if_pos h]
    exact ⟨Or.inr rfl, iff_of_true rfl h⟩
  · unfold point
    rw [if_neg h]
    exact ⟨Or.inl rfl, iff_of_false (by omega) h⟩

/-- Witness for C10 at a concrete out-of-range score. -/
theorem recommend_total_witness :
    (recommend (-7) "Normal/mildly impaired" "None/mild" "Severe" "No").2 ≠ [] ∧
    (recommend (-7) "Normal/mildly impaired" "None/mild" "Severe" "No").1 =
      (if (-7 : Int) ≤ 1 then "Repair favored (TriClip — T‑TEER)"
       else if (-7 : Int) ≥ 4 then "Replacement favored (TTVR)"
       else "Borderline — Heart Team review") :=
  recommend_total (-7) "Normal/mildly impaired" "None/mild" "Severe" "No"

end TriChoice

namespace TriChoice

/-- The full set of widget values the score computation may see: the five
anatomic flags (lines 29-33) and the four clinical-context flags that feed
`recommend` (lines 18-21). -/
structure Inputs where
  gap : String
  loc : String
  imgq : String
  density : String
  enface : String
  rv_function : String
  ph_status : String
  tr_severity : String
  cied_lead : String

/-- The score as computed over the full input state (src/app.py line 46):
it reads only the five anatomic fields. -/
def glideOf (s : Inputs) : Nat :=
  glide s.gap s.loc s.imgq s.density s.enface

/-- C7: two-run noninterference — two input states agreeing on the five
anatomic flags get the same score, whatever their four clinical-context
flags are. -/
theorem score_noninterference (s1 s2 : Inputs)
    (hg : s1.gap = s2.gap) (hl : s1.loc = s2.loc) (hi : s1.imgq = s2.imgq)
    (hd : s1.density = s2.density) (he : s1.enface = s2.enface) :
    glideOf s1 = glideOf s2 := by
  unfold glideOf
  rw [hg, hl, hi, hd, he]

/-- Witness for C7: two states with the same anatomy and maximally
different clinical context score identically. -/
theorem score_noninterference_witness :
    glideOf ⟨"Favorable (small/moderate)", "Unfavorable (commissural/off-axis/multiple)",
        "Good/Excellent", "Low/typical", "Focal/single",
        "Normal/mildly impaired", "None/mild", "Severe", "No"⟩ =
    glideOf ⟨"Favorable (small/moderate)", "Unfavorable (commissural/off-axis/multiple)",
        "Good/Excellent", "Low/typical", "Focal/single",
        "Severely impaired", "Severe/pre-capillary", "Torrential",
        "Yes — impinging / causal"⟩ :=
  score_noninterference _ _ rfl rfl rfl rfl rfl

end TriChoice
